import Mathlib

/-!
# RitualGrowthDash — formal model of the calculation engine

Shallow embedding of the calculation engine of `src/Dashboard.jsx`
(functions `calcBulkMargin`, `calcBulkMarginPct`, `calcRetailMargin`,
`calcTierEconomics`, `projectScenario`).  JavaScript numbers are modelled
as exact rationals (`ℚ`); `Math.round` is `⌊x + 1/2⌋` (round half toward
+∞), which matches JavaScript's `Math.round` on every real input.

The 12-month loop of `projectScenario` carries three mutable variables
(`totalActive`, `cumulativeRev`, `cumulativeProfit`); here each is written
as a recursion in the month index, which computes the same sequence of
values, and the emitted list of month records is the `map` of the record
builder over months 1..12.
-/

namespace RitualGrowthDash

/-- JavaScript `Math.round`: round half toward plus infinity. -/
def jround (x : ℚ) : ℤ := ⌊x + 1/2⌋

/-- `Math.round(x * 100) / 100`: round to 2 decimal places. -/
def round2 (x : ℚ) : ℚ := (jround (x * 100) : ℚ) / 100

/-- A bulk (cafe-bag) product, as in `DEFAULT_BULK_PRODUCTS`. -/
structure BulkProduct where
  id : String
  name : String
  sizeLbs : ℚ
  servings : ℚ
  wholesale : ℚ
  cogs : ℚ
deriving DecidableEq, Repr

/-- A retail (pouch) product, as in `DEFAULT_RETAIL_PRODUCTS`. -/
structure RetailProduct where
  id : String
  name : String
  retailPrice : ℚ
  wholesalePrice : ℚ
  cogs : ℚ
deriving DecidableEq, Repr

/-- A partner tier, as in `DEFAULT_TIERS`. -/
structure Tier where
  id : String
  label : String
  bulkProductIds : List String
  drinksPerDay : ℚ
  tspPerDrink : ℚ
  daysPerMonth : ℚ
  retailProductIds : List String
  retailUnitsPerMonth : ℚ
deriving DecidableEq, Repr

/-- A growth scenario, as in `DEFAULT_SCENARIOS` (`color` is presentation
only and omitted). -/
structure Scenario where
  name : String
  startingPartners : ℚ
  newPartnersPerMonth : ℚ
  pctSmall : ℚ
  pctMedium : ℚ
  pctLarge : ℚ
  monthlyChurnPct : ℚ
  retailAttachPct : ℚ
deriving DecidableEq, Repr

/-- One entry of the `bulkBreakdown` array built by `calcTierEconomics`. -/
structure BulkLine where
  name : String
  bags : ℚ
  rev : ℚ
deriving DecidableEq, Repr

/-- The record returned by `calcTierEconomics`. -/
structure TierEconomics where
  servingsPerMonth : ℚ
  bulkBreakdown : List BulkLine
  bulkRev : ℚ
  bulkProfit : ℚ
  retailRev : ℚ
  retailProfit : ℚ
  totalRev : ℚ
  totalProfit : ℚ
deriving DecidableEq, Repr

/-- `calcBulkMargin(p) = p.wholesale - p.cogs`. -/
def calcBulkMargin (p : BulkProduct) : ℚ := p.wholesale - p.cogs

/-- `calcBulkMarginPct(p) = p.wholesale > 0 ? (p.wholesale - p.cogs) / p.wholesale : 0`. -/
def calcBulkMarginPct (p : BulkProduct) : ℚ :=
  if p.wholesale > 0 then (p.wholesale - p.cogs) / p.wholesale else 0

/-- `calcRetailMargin(p) = p.wholesalePrice - p.cogs`. -/
def calcRetailMargin (p : RetailProduct) : ℚ := p.wholesalePrice - p.cogs

/-- `selectedBulk = bulkProducts.filter(p => tier.bulkProductIds.includes(p.id))`. -/
def selectedBulk (tier : Tier) (bulkProducts : List BulkProduct) : List BulkProduct :=
  bulkProducts.filter (fun p => tier.bulkProductIds.contains p.id)

/-- `selectedRetail = retailProducts.filter(p => tier.retailProductIds.includes(p.id))`. -/
def selectedRetail (tier : Tier) (retailProducts : List RetailProduct) : List RetailProduct :=
  retailProducts.filter (fun p => tier.retailProductIds.contains p.id)

/-- `totalServingsPerMonth = tier.drinksPerDay * tier.tspPerDrink * tier.daysPerMonth`. -/
def totalServingsPerMonth (tier : Tier) : ℚ :=
  tier.drinksPerDay * tier.tspPerDrink * tier.daysPerMonth

/-!
The three data-dependent divisions of `calcTierEconomics` (servings per
selected bulk product, bags per bulk product, retail units per selected
retail product) are each guarded in the source by a strict positivity
test.  To make that guarding provable as a property rather than an
artifact of `ℚ`'s total division, the functions below are parameterised
by the division operation `qdiv`; the engine itself instantiates
`qdiv := (· / ·)`.
-/

/-- `servingsPerProduct = selectedBulk.length > 0 ? totalServingsPerMonth / selectedBulk.length : 0`. -/
def servingsPerProductD (qdiv : ℚ → ℚ → ℚ) (tier : Tier) (bulkProducts : List BulkProduct) : ℚ :=
  if 0 < (selectedBulk tier bulkProducts).length then
    qdiv (totalServingsPerMonth tier) ((selectedBulk tier bulkProducts).length : ℚ)
  else 0

/-- `bags = bulk.servings > 0 ? servingsPerProduct / bulk.servings : 0`. -/
def bagsD (qdiv : ℚ → ℚ → ℚ) (tier : Tier) (bulkProducts : List BulkProduct)
    (bulk : BulkProduct) : ℚ :=
  if 0 < bulk.servings then qdiv (servingsPerProductD qdiv tier bulkProducts) bulk.servings else 0

/-- The accumulated `bulkRev` (`bulkRev += bags * bulk.wholesale` over `selectedBulk`),
before the final 2-decimal rounding. -/
def bulkRevRawD (qdiv : ℚ → ℚ → ℚ) (tier : Tier) (bulkProducts : List BulkProduct) : ℚ :=
  ((selectedBulk tier bulkProducts).map (fun bulk => bagsD qdiv tier bulkProducts bulk * bulk.wholesale)).sum

/-- The accumulated `bulkProfit` (`bulkProfit += bags * calcBulkMargin(bulk)`),
before the final 2-decimal rounding. -/
def bulkProfitRawD (qdiv : ℚ → ℚ → ℚ) (tier : Tier) (bulkProducts : List BulkProduct) : ℚ :=
  ((selectedBulk tier bulkProducts).map
    (fun bulk => bagsD qdiv tier bulkProducts bulk * calcBulkMargin bulk)).sum

/-- `retailUnitsPerProduct = selectedRetail.length > 0 ? tier.retailUnitsPerMonth / selectedRetail.length : 0`. -/
def retailUnitsPerProductD (qdiv : ℚ → ℚ → ℚ) (tier : Tier) (retailProducts : List RetailProduct) : ℚ :=
  if 0 < (selectedRetail tier retailProducts).length then
    qdiv tier.retailUnitsPerMonth ((selectedRetail tier retailProducts).length : ℚ)
  else 0

/-- The accumulated `retailRev` (`retailRev += retailUnitsPerProduct * retail.wholesalePrice`);
never rounded in the source. -/
def retailRevRawD (qdiv : ℚ → ℚ → ℚ) (tier : Tier) (retailProducts : List RetailProduct) : ℚ :=
  ((selectedRetail tier retailProducts).map
    (fun retail => retailUnitsPerProductD qdiv tier retailProducts * retail.wholesalePrice)).sum

/-- The accumulated `retailProfit` (`retailProfit += retailUnitsPerProduct * calcRetailMargin(retail)`);
never rounded in the source. -/
def retailProfitRawD (qdiv : ℚ → ℚ → ℚ) (tier : Tier) (retailProducts : List RetailProduct) : ℚ :=
  ((selectedRetail tier retailProducts).map
    (fun retail => retailUnitsPerProductD qdiv tier retailProducts * calcRetailMargin retail)).sum

/-- `calcTierEconomics`, with the division operation abstracted. -/
def calcTierEconomicsD (qdiv : ℚ → ℚ → ℚ) (tier : Tier) (bulkProducts : List BulkProduct)
    (retailProducts : List RetailProduct) : TierEconomics :=
  { servingsPerMonth := totalServingsPerMonth tier
    bulkBreakdown := (selectedBulk tier bulkProducts).map (fun bulk =>
      { name := bulk.name
        bags := round2 (bagsD qdiv tier bulkProducts bulk)
        rev := round2 (bagsD qdiv tier bulkProducts bulk * bulk.wholesale) })
    bulkRev := round2 (bulkRevRawD qdiv tier bulkProducts)
    bulkProfit := round2 (bulkProfitRawD qdiv tier bulkProducts)
    retailRev := retailRevRawD qdiv tier retailProducts
    retailProfit := retailProfitRawD qdiv tier retailProducts
    totalRev := round2 (bulkRevRawD qdiv tier bulkProducts + retailRevRawD qdiv tier retailProducts)
    totalProfit := round2 (bulkProfitRawD qdiv tier bulkProducts + retailProfitRawD qdiv tier retailProducts) }

/-- `calcTierEconomics(tier, bulkProducts, retailProducts)` of `Dashboard.jsx`. -/
def calcTierEconomics (tier : Tier) (bulkProducts : List BulkProduct)
    (retailProducts : List RetailProduct) : TierEconomics :=
  calcTierEconomicsD (· / ·) tier bulkProducts retailProducts

/-!
## The scenario projector

`projectScenario` first builds `tierEcon`, a string-keyed object mapping
each tier's `id` to its economics; a `forEach` assignment means a later
tier with the same `id` overwrites an earlier one, so a lookup returns
the economics of the LAST tier bearing that id.  `tierMap` takes the ids
of the tiers at positions 0, 1, 2 (`tiers[0]?.id` is `undefined`, here
`none`, past the end).  Inside the month loop, a cohort contributes only
when its `tid` is truthy (a non-empty string; `undefined` and `""` are
falsy in JavaScript) and `tierEcon[tid]` exists.
-/

/-- `tierEcon[tid]`: economics of the last tier in `tiers` whose id is `tid`
(object assignment in source order, later tiers overwrite earlier ones). -/
def tierEconLookup (tiers : List Tier) (bulkProducts : List BulkProduct)
    (retailProducts : List RetailProduct) (tid : String) : Option TierEconomics :=
  ((tiers.filter (fun t => t.id == tid)).getLast?).map
    (fun t => calcTierEconomics t bulkProducts retailProducts)

/-- `tierMap` at cohort position `i` (0 = small, 1 = medium, 2 = large):
`tiers[i]?.id`. -/
def tierMapId (tiers : List Tier) (i : ℕ) : Option String := (tiers[i]?).map Tier.id

/-- `totalActive` before the month-`n+1` record is pushed, counting from 0:
`activeAux s 0 = startingPartners` (month 1), and each later month first
applies churn to the prior value and then adds `newPartnersPerMonth`. -/
def activeAux (s : Scenario) : ℕ → ℚ
  | 0 => s.startingPartners
  | n + 1 => activeAux s n * (1 - s.monthlyChurnPct / 100) + s.newPartnersPerMonth

/-- `counts.small = totalActive * (scenario.pctSmall / 100)` at month `m`. -/
def countSmall (s : Scenario) (m : ℕ) : ℚ := activeAux s (m - 1) * (s.pctSmall / 100)

/-- `counts.medium = totalActive * (scenario.pctMedium / 100)` at month `m`. -/
def countMedium (s : Scenario) (m : ℕ) : ℚ := activeAux s (m - 1) * (s.pctMedium / 100)

/-- `counts.large = totalActive * (scenario.pctLarge / 100)` at month `m`. -/
def countLarge (s : Scenario) (m : ℕ) : ℚ := activeAux s (m - 1) * (s.pctLarge / 100)

/-- One cohort's contribution to an accumulator of the month loop:
`0` when `tierMap[size]` is `undefined` or `""` (falsy) or no tier carries
that id, else `counts[size] * f(tierEcon[tid])`. -/
def cohortContrib (tiers : List Tier) (bulkProducts : List BulkProduct)
    (retailProducts : List RetailProduct) (i : ℕ) (count : ℚ)
    (f : TierEconomics → ℚ) : ℚ :=
  match tierMapId tiers i with
  | none => 0
  | some tid =>
    if tid = "" then 0
    else
      match tierEconLookup tiers bulkProducts retailProducts tid with
      | none => 0
      | some e => count * f e

/-- The month-`m` accumulated `bulkRev` (sum over the small, medium, large cohorts). -/
def bulkRevU (s : Scenario) (tiers : List Tier) (bulkProducts : List BulkProduct)
    (retailProducts : List RetailProduct) (m : ℕ) : ℚ :=
  cohortContrib tiers bulkProducts retailProducts 0 (countSmall s m) (fun e => e.bulkRev)
    + cohortContrib tiers bulkProducts retailProducts 1 (countMedium s m) (fun e => e.bulkRev)
    + cohortContrib tiers bulkProducts retailProducts 2 (countLarge s m) (fun e => e.bulkRev)

/-- The month-`m` accumulated `bulkProfit`. -/
def bulkProfitU (s : Scenario) (tiers : List Tier) (bulkProducts : List BulkProduct)
    (retailProducts : List RetailProduct) (m : ℕ) : ℚ :=
  cohortContrib tiers bulkProducts retailProducts 0 (countSmall s m) (fun e => e.bulkProfit)
    + cohortContrib tiers bulkProducts retailProducts 1 (countMedium s m) (fun e => e.bulkProfit)
    + cohortContrib tiers bulkProducts retailProducts 2 (countLarge s m) (fun e => e.bulkProfit)

/-- The month-`m` accumulated `retailRev`
(`retailRev += counts[size] * tierEcon[tid].retailRev * retailAttach`). -/
def retailRevU (s : Scenario) (tiers : List Tier) (bulkProducts : List BulkProduct)
    (retailProducts : List RetailProduct) (m : ℕ) : ℚ :=
  cohortContrib tiers bulkProducts retailProducts 0 (countSmall s m)
      (fun e => e.retailRev * (s.retailAttachPct / 100))
    + cohortContrib tiers bulkProducts retailProducts 1 (countMedium s m)
      (fun e => e.retailRev * (s.retailAttachPct / 100))
    + cohortContrib tiers bulkProducts retailProducts 2 (countLarge s m)
      (fun e => e.retailRev * (s.retailAttachPct / 100))

/-- The month-`m` accumulated `retailProfit`. -/
def retailProfitU (s : Scenario) (tiers : List Tier) (bulkProducts : List BulkProduct)
    (retailProducts : List RetailProduct) (m : ℕ) : ℚ :=
  cohortContrib tiers bulkProducts retailProducts 0 (countSmall s m)
      (fun e => e.retailProfit * (s.retailAttachPct / 100))
    + cohortContrib tiers bulkProducts retailProducts 1 (countMedium s m)
      (fun e => e.retailProfit * (s.retailAttachPct / 100))
    + cohortContrib tiers bulkProducts retailProducts 2 (countLarge s m)
      (fun e => e.retailProfit * (s.retailAttachPct / 100))

/-- `totalRev = bulkRev + retailRev` for month `m`, unrounded. -/
def totalRevU (s : Scenario) (tiers : List Tier) (bulkProducts : List BulkProduct)
    (retailProducts : List RetailProduct) (m : ℕ) : ℚ :=
  bulkRevU s tiers bulkProducts retailProducts m + retailRevU s tiers bulkProducts retailProducts m

/-- `totalProfit = bulkProfit + retailProfit` for month `m`, unrounded. -/
def totalProfitU (s : Scenario) (tiers : List Tier) (bulkProducts : List BulkProduct)
    (retailProducts : List RetailProduct) (m : ℕ) : ℚ :=
  bulkProfitU s tiers bulkProducts retailProducts m
    + retailProfitU s tiers bulkProducts retailProducts m

/-- `cumulativeRev` after `n` months (`cumulativeRev += totalRev` each month). -/
def cumRevU (s : Scenario) (tiers : List Tier) (bulkProducts : List BulkProduct)
    (retailProducts : List RetailProduct) : ℕ → ℚ
  | 0 => 0
  | n + 1 => cumRevU s tiers bulkProducts retailProducts n
      + totalRevU s tiers bulkProducts retailProducts (n + 1)

/-- `cumulativeProfit` after `n` months. -/
def cumProfitU (s : Scenario) (tiers : List Tier) (bulkProducts : List BulkProduct)
    (retailProducts : List RetailProduct) : ℕ → ℚ
  | 0 => 0
  | n + 1 => cumProfitU s tiers bulkProducts retailProducts n
      + totalProfitU s tiers bulkProducts retailProducts (n + 1)

/-- The record pushed into `months` by `projectScenario`.  Integer-valued
currency fields hold `Math.round`ed whole units; `totalActive` and the
cohort counts are rounded to 2 decimal places; `marginPct` to 1 decimal. -/
structure MonthRow where
  month : ℕ
  label : String
  totalActive : ℚ
  small : ℚ
  medium : ℚ
  large : ℚ
  bulkRevenue : ℤ
  retailRevenue : ℤ
  totalRevenue : ℤ
  bulkProfit : ℤ
  retailProfit : ℤ
  totalProfit : ℤ
  marginPct : ℚ
  cumulativeRev : ℤ
  cumulativeProfit : ℤ
deriving DecidableEq, Repr

/-- The month-`m` record pushed by `projectScenario` (`1 ≤ m ≤ 12`). -/
def monthRow (s : Scenario) (tiers : List Tier) (bulkProducts : List BulkProduct)
    (retailProducts : List RetailProduct) (m : ℕ) : MonthRow :=
  { month := m
    label := "M" ++ toString m
    totalActive := round2 (activeAux s (m - 1))
    small := round2 (countSmall s m)
    medium := round2 (countMedium s m)
    large := round2 (countLarge s m)
    bulkRevenue := jround (bulkRevU s tiers bulkProducts retailProducts m)
    retailRevenue := jround (retailRevU s tiers bulkProducts retailProducts m)
    totalRevenue := jround (totalRevU s tiers bulkProducts retailProducts m)
    bulkProfit := jround (bulkProfitU s tiers bulkProducts retailProducts m)
    retailProfit := jround (retailProfitU s tiers bulkProducts retailProducts m)
    totalProfit := jround (totalProfitU s tiers bulkProducts retailProducts m)
    marginPct := if totalRevU s tiers bulkProducts retailProducts m > 0 then
        (jround (totalProfitU s tiers bulkProducts retailProducts m
          / totalRevU s tiers bulkProducts retailProducts m * 1000) : ℚ) / 10
      else 0
    cumulativeRev := jround (cumRevU s tiers bulkProducts retailProducts m)
    cumulativeProfit := jround (cumProfitU s tiers bulkProducts retailProducts m) }

/-- `projectScenario(scenario, tiers, bulkProducts, retailProducts)`:
the ordered list of the 12 month records. -/
def projectScenario (s : Scenario) (tiers : List Tier) (bulkProducts : List BulkProduct)
    (retailProducts : List RetailProduct) : List MonthRow :=
  (List.range 12).map (fun i => monthRow s tiers bulkProducts retailProducts (i + 1))

/-- The economics value the spec's positional reading assigns to the cohort
at position `i`: the tier at index `i` of the sequence, or 0 when absent. -/
def positionalEcon (tiers : List Tier) (bulkProducts : List BulkProduct)
    (retailProducts : List RetailProduct) (i : ℕ) (f : TierEconomics → ℚ) : ℚ :=
  match tiers[i]? with
  | none => 0
  | some t => f (calcTierEconomics t bulkProducts retailProducts)

/-!
## Concrete inputs used by witnesses and counterexamples
-/

/-- The default "Base Case" scenario of `DEFAULT_SCENARIOS`. -/
def baseCase : Scenario :=
  { name := "Base Case", startingPartners := 1, newPartnersPerMonth := 2, pctSmall := 50,
    pctMedium := 35, pctLarge := 15, monthlyChurnPct := 2, retailAttachPct := 50 }

/-- A zero-churn scenario used to witness the closed form of the recurrence. -/
def zeroChurnScenario : Scenario :=
  { name := "ZeroChurn", startingPartners := 1, newPartnersPerMonth := 3, pctSmall := 100,
    pctMedium := 0, pctLarge := 0, monthlyChurnPct := 0, retailAttachPct := 0 }

/-- A scenario whose cohort percentages sum to 150, not 100. -/
def overSplitScenario : Scenario :=
  { name := "OverSplit", startingPartners := 1, newPartnersPerMonth := 0, pctSmall := 50,
    pctMedium := 50, pctLarge := 50, monthlyChurnPct := 0, retailAttachPct := 0 }

/-- A bulk product half a bag of which covers a month of tier `halfTier`. -/
def halfBag : BulkProduct :=
  { id := "b1", name := "Half Bag", sizeLbs := 1, servings := 600, wholesale := 1, cogs := 0 }

/-- A tier consuming exactly half a `halfBag` per month (300 servings), no retail. -/
def halfTier : Tier :=
  { id := "t1", label := "Half", bulkProductIds := ["b1"], drinksPerDay := 10, tspPerDrink := 1,
    daysPerMonth := 30, retailProductIds := [], retailUnitsPerMonth := 0 }

/-- A steady scenario: one partner forever, all small, no retail attach.
Every month's unrounded revenue with `halfTier` is exactly 0.5. -/
def steadyScenario : Scenario :=
  { name := "Steady", startingPartners := 1, newPartnersPerMonth := 0, pctSmall := 100,
    pctMedium := 0, pctLarge := 0, monthlyChurnPct := 0, retailAttachPct := 0 }

/-- A retail product used to produce a month with bulk 0.5 and retail 0.5. -/
def halfPouch : RetailProduct :=
  { id := "r1", name := "Half Pouch", retailPrice := 0, wholesalePrice := 1, cogs := 0 }

/-- `halfTier` extended with one retail unit of `halfPouch` per month. -/
def halfRetailTier : Tier :=
  { id := "t1", label := "HalfR", bulkProductIds := ["b1"], drinksPerDay := 10, tspPerDrink := 1,
    daysPerMonth := 30, retailProductIds := ["r1"], retailUnitsPerMonth := 1 }

/-- `steadyScenario` with a 50% retail attach rate. -/
def steadyAttachScenario : Scenario :=
  { name := "SteadyAttach", startingPartners := 1, newPartnersPerMonth := 0, pctSmall := 100,
    pctMedium := 0, pctLarge := 0, monthlyChurnPct := 0, retailAttachPct := 50 }

/-- A retail product whose price is a tenth of a cent, so the unrounded
retail revenue it generates is not a 2-decimal value. -/
def milliPouch : RetailProduct :=
  { id := "mp", name := "Milli Pouch", retailPrice := 0, wholesalePrice := 1/1000, cogs := 0 }

/-- A tier selling one `milliPouch` per month and no bulk. -/
def milliTier : Tier :=
  { id := "mt", label := "Milli", bulkProductIds := [], drinksPerDay := 0, tspPerDrink := 0,
    daysPerMonth := 0, retailProductIds := ["mp"], retailUnitsPerMonth := 1 }

/-- A tier whose only bulk reference is dangling (no catalog product has id `ghost`). -/
def danglingTier : Tier :=
  { id := "dt", label := "Dangling", bulkProductIds := ["ghost"], drinksPerDay := 10,
    tspPerDrink := 2, daysPerMonth := 30, retailProductIds := [], retailUnitsPerMonth := 0 }

/-- A bulk product with a negative `servings` field. -/
def negServingsBag : BulkProduct :=
  { id := "neg", name := "Neg Bag", sizeLbs := 1, servings := -5, wholesale := 4, cogs := 1 }

/-- A tier selecting the negative-servings product. -/
def negServingsTier : Tier :=
  { id := "nt", label := "Neg", bulkProductIds := ["neg"], drinksPerDay := 1, tspPerDrink := 1,
    daysPerMonth := 1, retailProductIds := [], retailUnitsPerMonth := 0 }

/-- A one-serving one-dollar bulk product. -/
def unitBag : BulkProduct :=
  { id := "pb", name := "Unit Bag", sizeLbs := 1, servings := 1, wholesale := 1, cogs := 0 }

/-- First tier of the duplicate-id counterexample: id `x`, one drink a month,
so its own economics has `bulkRev = 1`. -/
def dupTierFirst : Tier :=
  { id := "x", label := "first", bulkProductIds := ["pb"], drinksPerDay := 1, tspPerDrink := 1,
    daysPerMonth := 1, retailProductIds := [], retailUnitsPerMonth := 0 }

/-- Middle tier of the duplicate-id counterexample, id `y`, consuming nothing. -/
def dupTierMiddle : Tier :=
  { id := "y", label := "second", bulkProductIds := [], drinksPerDay := 0, tspPerDrink := 0,
    daysPerMonth := 0, retailProductIds := [], retailUnitsPerMonth := 0 }

/-- Third tier of the duplicate-id counterexample: same id `x` as the first,
two drinks a month, so its economics has `bulkRev = 2`. -/
def dupTierThird : Tier :=
  { id := "x", label := "third", bulkProductIds := ["pb"], drinksPerDay := 2, tspPerDrink := 1,
    daysPerMonth := 1, retailProductIds := [], retailUnitsPerMonth := 0 }

/-!
## General lemmas about the rounding operations
-/

theorem jround_sub_abs_le (x : ℚ) : |(jround x : ℚ) - x| ≤ 1 / 2 := by
  have h1 : ((⌊x + 1 / 2⌋ : ℤ) : ℚ) ≤ x + 1 / 2 := Int.floor_le _
  have h2 : x + 1 / 2 < ((⌊x + 1 / 2⌋ : ℤ) : ℚ) + 1 := Int.lt_floor_add_one _
  rw [abs_le]
  unfold jround
  constructor <;> linarith

theorem jround_intCast (k : ℤ) : jround (k : ℚ) = k := by
  unfold jround
  rw [add_comm, Int.floor_add_int]
  norm_num

theorem round2_round2 (x : ℚ) : round2 (round2 x) = round2 x := by
  unfold round2
  rw [div_mul_cancel₀ _ (by norm_num : (100 : ℚ) ≠ 0), jround_intCast]

theorem jround_add_abs_le (a b : ℚ) : |jround (a + b) - (jround a + jround b)| ≤ 1 := by
  have ha := jround_sub_abs_le a
  have hb := jround_sub_abs_le b
  have hab := jround_sub_abs_le (a + b)
  rw [abs_le] at ha hb hab
  have hup : ((jround (a + b) - (jround a + jround b) : ℤ) : ℚ) < 2 := by
    push_cast
    linarith
  have hdn : (-2 : ℚ) < ((jround (a + b) - (jround a + jround b) : ℤ) : ℚ) := by
    push_cast
    linarith
  have hup' : (jround (a + b) - (jround a + jround b) : ℤ) < 2 := by exact_mod_cast hup
  have hdn' : (-2 : ℤ) < jround (a + b) - (jround a + jround b) := by exact_mod_cast hdn
  rw [abs_le]
  omega

theorem list_range_map_sum {M : Type} [AddCommMonoid M] (f : ℕ → M) (n : ℕ) :
    ((List.range n).map f).sum = ∑ i ∈ Finset.range n, f i := by
  induction n with
  | zero => simp
  | succ k ih => rw [List.range_succ, List.map_append, List.sum_append, ih,
      Finset.sum_range_succ]; simp

theorem jround_sum_sub_abs_le (f : ℕ → ℚ) (n : ℕ) :
    |(jround (∑ i ∈ Finset.range n, f i) : ℚ)
      - ∑ i ∈ Finset.range n, ((jround (f i) : ℤ) : ℚ)| ≤ (n + 1) / 2 := by
  have heq : (jround (∑ i ∈ Finset.range n, f i) : ℚ)
      - ∑ i ∈ Finset.range n, ((jround (f i) : ℤ) : ℚ)
      = ((jround (∑ i ∈ Finset.range n, f i) : ℚ) - ∑ i ∈ Finset.range n, f i)
        + ∑ i ∈ Finset.range n, (f i - ((jround (f i) : ℤ) : ℚ)) := by
    rw [Finset.sum_sub_distrib]
    ring
  rw [heq]
  have h1 := jround_sub_abs_le (∑ i ∈ Finset.range n, f i)
  have h2 : ∑ i ∈ Finset.range n, |f i - ((jround (f i) : ℤ) : ℚ)|
      ≤ ∑ _i ∈ Finset.range n, (1 / 2 : ℚ) := by
    refine Finset.sum_le_sum fun i _ => ?_
    rw [abs_sub_comm]
    exact jround_sub_abs_le (f i)
  calc |((jround (∑ i ∈ Finset.range n, f i) : ℚ) - ∑ i ∈ Finset.range n, f i)
        + ∑ i ∈ Finset.range n, (f i - ((jround (f i) : ℤ) : ℚ))|
      ≤ |(jround (∑ i ∈ Finset.range n, f i) : ℚ) - ∑ i ∈ Finset.range n, f i|
        + |∑ i ∈ Finset.range n, (f i - ((jround (f i) : ℤ) : ℚ))| := abs_add _ _
    _ ≤ 1 / 2 + ∑ i ∈ Finset.range n, |f i - ((jround (f i) : ℤ) : ℚ)| :=
        add_le_add h1 (Finset.abs_sum_le_sum_abs _ _)
    _ ≤ 1 / 2 + ∑ _i ∈ Finset.range n, (1 / 2 : ℚ) := by linarith
    _ = (n + 1) / 2 := by
        rw [Finset.sum_const, Finset.card_range, nsmul_eq_mul]
        ring

/-!
## General lemmas about the projector's state recursions
-/

theorem activeAux_set_attach (s : Scenario) (x : ℚ) (n : ℕ) :
    activeAux { s with retailAttachPct := x } n = activeAux s n := by
  induction n with
  | zero => rfl
  | succ k ih => simp [activeAux, ih]

theorem cumRevU_eq_sum (s : Scenario) (tiers : List Tier) (bp : List BulkProduct)
    (rp : List RetailProduct) (n : ℕ) :
    cumRevU s tiers bp rp n = ∑ i ∈ Finset.range n, totalRevU s tiers bp rp (i + 1) := by
  induction n with
  | zero => simp [cumRevU]
  | succ k ih => rw [cumRevU, ih, Finset.sum_range_succ]

theorem filter_id_singleton_of_nodup {tiers : List Tier}
    (h2 : (tiers.map Tier.id).Nodup) {t : Tier} (ht : t ∈ tiers) :
    tiers.filter (fun u => u.id == t.id) = [t] := by
  induction tiers with
  | nil => cases ht
  | cons u rest ih =>
    rw [List.map_cons, List.nodup_cons] at h2
    rcases List.mem_cons.mp ht with rfl | hmem
    · have hnil : rest.filter (fun v => v.id == t.id) = [] := by
        rw [List.filter_eq_nil_iff]
        intro v hv hvu
        rw [beq_iff_eq] at hvu
        exact h2.1 (hvu ▸ List.mem_map_of_mem Tier.id hv)
      simp [List.filter_cons, hnil]
    · have hne : (u.id == t.id) = false := by
        rw [beq_eq_false_iff_ne]
        intro heq
        exact h2.1 (heq ▸ List.mem_map_of_mem Tier.id hmem)
      rw [List.filter_cons, hne]
      exact ih h2.2 hmem

theorem cohortContrib_of_nodup {tiers : List Tier} {bp : List BulkProduct}
    {rp : List RetailProduct} (h1 : ∀ t ∈ tiers, t.id ≠ "")
    (h2 : (tiers.map Tier.id).Nodup) {i : ℕ} {t : Tier} (ht : tiers[i]? = some t)
    (c : ℚ) (f : TierEconomics → ℚ) :
    cohortContrib tiers bp rp i c f = c * f (calcTierEconomics t bp rp) := by
  have hmem : t ∈ tiers := List.getElem?_mem ht
  simp only [cohortContrib, tierMapId, ht, Option.map_some']
  rw [if_neg (h1 t hmem)]
  unfold tierEconLookup
  rw [filter_id_singleton_of_nodup h2 hmem]
  rfl

theorem cohortContrib_oob {tiers : List Tier} {bp : List BulkProduct}
    {rp : List RetailProduct} {i : ℕ} (h : tiers.length ≤ i) (c : ℚ)
    (f : TierEconomics → ℚ) :
    cohortContrib tiers bp rp i c f = 0 := by
  simp [cohortContrib, tierMapId, List.getElem?_eq_none h]

/-!
## The claims
-/

/-- **C1.** In `projectScenario`, the active-partner state follows the
churn-before-growth recurrence: the month-1 state (`activeAux s 0`) is
exactly `startingPartners`; each later month's state is the prior state
times `1 - monthlyChurnPct/100` plus `newPartnersPerMonth`; each emitted
`totalActive` field is the 2-decimal rounding of the month's state; and
when `monthlyChurnPct = 0` the month-`m` state (`activeAux s (m-1)`)
is exactly `startingPartners + (m-1) * newPartnersPerMonth`. -/
theorem c1_churn_before_growth (s : Scenario) (tiers : List Tier)
    (bp : List BulkProduct) (rp : List RetailProduct) :
    activeAux s 0 = s.startingPartners ∧
    (∀ n : ℕ, activeAux s (n + 1)
      = activeAux s n * (1 - s.monthlyChurnPct / 100) + s.newPartnersPerMonth) ∧
    (∀ i : ℕ, i < 12 →
      ((projectScenario s tiers bp rp)[i]?).map MonthRow.totalActive
        = some (round2 (activeAux s i))) ∧
    (s.monthlyChurnPct = 0 → ∀ n : ℕ,
      activeAux s n = s.startingPartners + n * s.newPartnersPerMonth) := by
  refine ⟨rfl, fun n => rfl, fun i hi => ?_, fun h n => ?_⟩
  · simp [projectScenario, monthRow, hi]
  · induction n with
    | zero => simp [activeAux]
    | succ k ih =>
      rw [show activeAux s (k + 1)
          = activeAux s k * (1 - s.monthlyChurnPct / 100) + s.newPartnersPerMonth from rfl,
        ih, h]
      push_cast
      ring

/-- Witness for C1: the zero-churn scenario with 1 starting partner and 3
new partners a month reaches state 10 at month 4 (reported as 10) and
state 13 at month 5. -/
theorem c1_churn_before_growth_witness :
    ((projectScenario zeroChurnScenario [] [] [])[3]?).map MonthRow.totalActive
      = some 10 ∧ activeAux zeroChurnScenario 4 = 13 := by
  have h := c1_churn_before_growth zeroChurnScenario [] [] []
  constructor
  · rw [h.2.2.1 3 (by norm_num)]
    have h3 : activeAux zeroChurnScenario 3 = 10 := by
      rw [h.2.2.2 rfl 3]
      norm_num [zeroChurnScenario]
    rw [h3]
    norm_num [round2, jround]
  · rw [h.2.2.2 rfl 4]
    norm_num [zeroChurnScenario]

/-- **C4.** Cohort counts are the literal products
`totalActive * pct/100`, are emitted (2-dp rounded) as the `small`,
`medium`, `large` fields, and are not re-normalized: their sum is
`totalActive * (pctSmall+pctMedium+pctLarge)/100`, which differs from
`totalActive` whenever the percentages do not sum to 100 and the active
count is nonzero. -/
theorem c4_cohort_split (s : Scenario) (tiers : List Tier) (bp : List BulkProduct)
    (rp : List RetailProduct) :
    (∀ m : ℕ, countSmall s m = activeAux s (m - 1) * (s.pctSmall / 100)
      ∧ countMedium s m = activeAux s (m - 1) * (s.pctMedium / 100)
      ∧ countLarge s m = activeAux s (m - 1) * (s.pctLarge / 100)) ∧
    (∀ i : ℕ, i < 12 →
      ((projectScenario s tiers bp rp)[i]?).map (fun r => (r.small, r.medium, r.large))
        = some (round2 (countSmall s (i + 1)), round2 (countMedium s (i + 1)),
            round2 (countLarge s (i + 1)))) ∧
    (∀ m : ℕ, countSmall s m + countMedium s m + countLarge s m
      = activeAux s (m - 1) * ((s.pctSmall + s.pctMedium + s.pctLarge) / 100)) ∧
    (∀ m : ℕ, s.pctSmall + s.pctMedium + s.pctLarge ≠ 100 → activeAux s (m - 1) ≠ 0 →
      countSmall s m + countMedium s m + countLarge s m ≠ activeAux s (m - 1)) := by
  refine ⟨fun m => ⟨rfl, rfl, rfl⟩, fun i hi => ?_, fun m => ?_, fun m hP ha hEq => ?_⟩
  · simp [projectScenario, monthRow, hi]
  · unfold countSmall countMedium countLarge
    ring
  · unfold countSmall countMedium countLarge at hEq
    apply hP
    have h2 : activeAux s (m - 1)
        * ((s.pctSmall + s.pctMedium + s.pctLarge) / 100 - 1) = 0 := by
      linear_combination hEq
    rcases mul_eq_zero.mp h2 with h | h
    · exact absurd h ha
    · have h3 : (s.pctSmall + s.pctMedium + s.pctLarge) / 100 = 1 := by linarith
      linarith

/-- Witness for C4: with percentages 50/50/50 the modeled cohorts sum to
1.5 partners against 1 active partner, and month 1 reports 0.5 per cohort. -/
theorem c4_cohort_split_witness :
    countSmall overSplitScenario 1 + countMedium overSplitScenario 1
        + countLarge overSplitScenario 1 ≠ activeAux overSplitScenario 0 ∧
    ((projectScenario overSplitScenario [] [] [])[0]?).map
        (fun r => (r.small, r.medium, r.large))
      = some (1 / 2, 1 / 2, 1 / 2) := by
  have h := c4_cohort_split overSplitScenario [] [] []
  refine ⟨h.2.2.2 1 (by norm_num [overSplitScenario])
    (by norm_num [overSplitScenario, activeAux]), ?_⟩
  rw [h.2.1 0 (by norm_num)]
  norm_num [countSmall, countMedium, countLarge, overSplitScenario, activeAux, round2, jround]

/-- **C6.** Retail revenue scales linearly in `retailAttachPct`: with the
scenario's other fields, the tiers and the catalogs fixed, the unrounded
retail-revenue contribution at attach 100 is exactly double the one at
attach 50 in every month (and the emitted `retailRevenue` field is the
whole-unit rounding of that contribution). -/
theorem c6_retail_attach_linear (s : Scenario) (tiers : List Tier)
    (bp : List BulkProduct) (rp : List RetailProduct) :
    (∀ m : ℕ, retailRevU { s with retailAttachPct := 100 } tiers bp rp m
      = 2 * retailRevU { s with retailAttachPct := 50 } tiers bp rp m) ∧
    (∀ m : ℕ, (monthRow { s with retailAttachPct := 100 } tiers bp rp m).retailRevenue
      = jround (retailRevU { s with retailAttachPct := 100 } tiers bp rp m)) := by
  refine ⟨fun m => ?_, fun m => rfl⟩
  have hc : ∀ (i : ℕ) (c : ℚ),
      cohortContrib tiers bp rp i c (fun e => e.retailRev * ((100 : ℚ) / 100))
        = 2 * cohortContrib tiers bp rp i c (fun e => e.retailRev * ((50 : ℚ) / 100)) := by
    intro i c
    unfold cohortContrib
    cases htid : tierMapId tiers i with
    | none => norm_num
    | some tid =>
      dsimp only
      by_cases he : tid = ""
      · simp [he]
      · rw [if_neg he, if_neg he]
        cases hl : tierEconLookup tiers bp rp tid with
        | none => norm_num
        | some e => dsimp only; ring
  unfold retailRevU
  simp only [countSmall, countMedium, countLarge, activeAux_set_attach]
  rw [hc 0 _, hc 1 _, hc 2 _]
  ring

/-- **C2.** `calcTierEconomics` returns `bulkRev`, `bulkProfit`,
`totalRev`, `totalProfit` as 2-decimal roundings — the totals rounding the
UNROUNDED sums of the raw bulk and retail accumulators — while `retailRev`
and `retailProfit` are the raw accumulators with no rounding applied
(witnessed by an input whose retail revenue is not a 2-decimal value). -/
theorem c2_rounding_policy (tier : Tier) (bp : List BulkProduct) (rp : List RetailProduct) :
    (calcTierEconomics tier bp rp).bulkRev = round2 (bulkRevRawD (· / ·) tier bp) ∧
    (calcTierEconomics tier bp rp).bulkProfit = round2 (bulkProfitRawD (· / ·) tier bp) ∧
    (calcTierEconomics tier bp rp).totalRev
      = round2 (bulkRevRawD (· / ·) tier bp + retailRevRawD (· / ·) tier rp) ∧
    (calcTierEconomics tier bp rp).totalProfit
      = round2 (bulkProfitRawD (· / ·) tier bp + retailProfitRawD (· / ·) tier rp) ∧
    (calcTierEconomics tier bp rp).retailRev = retailRevRawD (· / ·) tier rp ∧
    (calcTierEconomics tier bp rp).retailProfit = retailProfitRawD (· / ·) tier rp ∧
    round2 (calcTierEconomics tier bp rp).bulkRev = (calcTierEconomics tier bp rp).bulkRev ∧
    round2 (calcTierEconomics tier bp rp).bulkProfit
      = (calcTierEconomics tier bp rp).bulkProfit ∧
    round2 (calcTierEconomics tier bp rp).totalRev = (calcTierEconomics tier bp rp).totalRev ∧
    round2 (calcTierEconomics tier bp rp).totalProfit
      = (calcTierEconomics tier bp rp).totalProfit ∧
    (calcTierEconomics milliTier [] [milliPouch]).retailRev
      ≠ round2 (calcTierEconomics milliTier [] [milliPouch]).retailRev := by
  refine ⟨rfl, rfl, rfl, rfl, rfl, rfl, round2_round2 _, round2_round2 _, round2_round2 _,
    round2_round2 _, ?_⟩
  have h : (calcTierEconomics milliTier [] [milliPouch]).retailRev = 1 / 1000 := by
    norm_num [calcTierEconomics, calcTierEconomicsD, retailRevRawD, retailUnitsPerProductD,
      selectedRetail, milliTier, milliPouch]
  rw [h]
  norm_num [round2, jround]

/-- Witness for C2 at the milli-pouch tier: its retail revenue is carried
unrounded (it is not a 2-decimal value) while its bulk revenue is the
2-decimal rounding of the raw bulk accumulator. -/
theorem c2_rounding_policy_witness :
    (calcTierEconomics milliTier [] [milliPouch]).retailRev
      ≠ round2 (calcTierEconomics milliTier [] [milliPouch]).retailRev ∧
    (calcTierEconomics milliTier [] [milliPouch]).bulkRev
      = round2 (bulkRevRawD (· / ·) milliTier []) :=
  ⟨(c2_rounding_policy milliTier [] [milliPouch]).2.2.2.2.2.2.2.2.2.2,
   (c2_rounding_policy milliTier [] [milliPouch]).1⟩

/-- **C7.** A tier whose resolved bulk selection is empty gets
`bulkRev = 0`, `bulkProfit = 0` and an empty `bulkBreakdown`, while
`servingsPerMonth` is always `drinksPerDay * tspPerDrink * daysPerMonth`,
independent of product selection. -/
theorem c7_empty_bulk_selection (tier : Tier) (bp : List BulkProduct)
    (rp : List RetailProduct) (h : selectedBulk tier bp = []) :
    (calcTierEconomics tier bp rp).bulkRev = 0 ∧
    (calcTierEconomics tier bp rp).bulkProfit = 0 ∧
    (calcTierEconomics tier bp rp).bulkBreakdown = [] ∧
    (calcTierEconomics tier bp rp).servingsPerMonth
      = tier.drinksPerDay * tier.tspPerDrink * tier.daysPerMonth := by
  have hz : round2 0 = 0 := by norm_num [round2, jround]
  refine ⟨?_, ?_, ?_, rfl⟩
  · show round2 (bulkRevRawD (· / ·) tier bp) = 0
    unfold bulkRevRawD
    rw [h, List.map_nil, List.sum_nil]
    exact hz
  · show round2 (bulkProfitRawD (· / ·) tier bp) = 0
    unfold bulkProfitRawD
    rw [h, List.map_nil, List.sum_nil]
    exact hz
  · show (selectedBulk tier bp).map _ = []
    rw [h, List.map_nil]

/-- Witness for C7: a tier whose only bulk reference is dangling resolves
to an empty selection (the id is silently dropped), yet its servings per
month are still computed. -/
theorem c7_empty_bulk_selection_witness :
    selectedBulk danglingTier [halfBag] = [] ∧
    (calcTierEconomics danglingTier [halfBag] []).bulkRev = 0 ∧
    (calcTierEconomics danglingTier [halfBag] []).bulkBreakdown = [] ∧
    (calcTierEconomics danglingTier [halfBag] []).servingsPerMonth = 600 := by
  have hsel : selectedBulk danglingTier [halfBag] = [] := by
    simp [selectedBulk, danglingTier, halfBag]
  have h := c7_empty_bulk_selection danglingTier [halfBag] [] hsel
  refine ⟨hsel, h.1, h.2.2.1, ?_⟩
  rw [h.2.2.2]
  norm_num [danglingTier]

/-- **C9.** Every data-dependent division in `calcTierEconomics` is
guarded by a strict positivity test: the result does not depend on what
division at a zero denominator would return (any two division operations
agreeing away from zero denominators give identical results), and a bulk
product with nonpositive — in particular negative — `servings` yields 0
bags rather than a negative bag count. -/
theorem c9_guarded_divisions :
    (∀ d1 d2 : ℚ → ℚ → ℚ, (∀ a b : ℚ, b ≠ 0 → d1 a b = d2 a b) →
      ∀ (tier : Tier) (bp : List BulkProduct) (rp : List RetailProduct),
        calcTierEconomicsD d1 tier bp rp = calcTierEconomicsD d2 tier bp rp) ∧
    (∀ (tier : Tier) (bp : List BulkProduct) (p : BulkProduct), p.servings ≤ 0 →
      bagsD (· / ·) tier bp p = 0) ∧
    calcTierEconomics = calcTierEconomicsD (· / ·) := by
  refine ⟨?_, ?_, rfl⟩
  · intro d1 d2 h tier bp rp
    have hspp : servingsPerProductD d1 tier bp = servingsPerProductD d2 tier bp := by
      unfold servingsPerProductD
      split_ifs with hl
      · exact h _ _ (Nat.cast_ne_zero.mpr (Nat.pos_iff_ne_zero.mp hl))
      · rfl
    have hbags : ∀ b, bagsD d1 tier bp b = bagsD d2 tier bp b := by
      intro b
      unfold bagsD
      rw [hspp]
      split_ifs with hs
      · exact h _ _ (ne_of_gt hs)
      · rfl
    have hru : retailUnitsPerProductD d1 tier rp = retailUnitsPerProductD d2 tier rp := by
      unfold retailUnitsPerProductD
      split_ifs with hl
      · exact h _ _ (Nat.cast_ne_zero.mpr (Nat.pos_iff_ne_zero.mp hl))
      · rfl
    simp only [calcTierEconomicsD, bulkRevRawD, bulkProfitRawD, retailRevRawD,
      retailProfitRawD, hbags, hru]
  · intro tier bp p hp
    unfold bagsD
    rw [if_neg (not_lt.mpr hp)]

/-- Witness for C9: a division operation returning 37 at zero denominators
gives the same economics as ordinary division, and the negative-servings
product yields 0 bags. -/
theorem c9_guarded_divisions_witness :
    calcTierEconomicsD (· / ·) danglingTier [halfBag] []
      = calcTierEconomicsD (fun a b => if b = 0 then 37 else a / b) danglingTier [halfBag] [] ∧
    bagsD (· / ·) negServingsTier [negServingsBag] negServingsBag = 0 := by
  have h := c9_guarded_divisions
  exact ⟨h.1 _ _ (fun a b hb => (if_neg hb).symm) danglingTier [halfBag] [],
    h.2.1 negServingsTier [negServingsBag] negServingsBag (by norm_num [negServingsBag])⟩

/-- **C10.** In every emitted month record, `bulkRevenue`, `retailRevenue`
and `totalRevenue` are whole-unit roundings of the respective unrounded
accumulators — `totalRevenue` rounding the unrounded sum — so
`totalRevenue` can differ from `bulkRevenue + retailRevenue` (a concrete
month where it does is included), but by at most 1; likewise for the three
profit fields. -/
theorem c10_independent_rounding (s : Scenario) (tiers : List Tier)
    (bp : List BulkProduct) (rp : List RetailProduct) (i : ℕ) (hi : i < 12) :
    (projectScenario s tiers bp rp)[i]? = some (monthRow s tiers bp rp (i + 1)) ∧
    (monthRow s tiers bp rp (i + 1)).bulkRevenue
      = jround (bulkRevU s tiers bp rp (i + 1)) ∧
    (monthRow s tiers bp rp (i + 1)).retailRevenue
      = jround (retailRevU s tiers bp rp (i + 1)) ∧
    (monthRow s tiers bp rp (i + 1)).totalRevenue
      = jround (bulkRevU s tiers bp rp (i + 1) + retailRevU s tiers bp rp (i + 1)) ∧
    |(monthRow s tiers bp rp (i + 1)).totalRevenue
      - ((monthRow s tiers bp rp (i + 1)).bulkRevenue
        + (monthRow s tiers bp rp (i + 1)).retailRevenue)| ≤ 1 ∧
    |(monthRow s tiers bp rp (i + 1)).totalProfit
      - ((monthRow s tiers bp rp (i + 1)).bulkProfit
        + (monthRow s tiers bp rp (i + 1)).retailProfit)| ≤ 1 ∧
    (monthRow steadyAttachScenario [halfRetailTier] [halfBag] [halfPouch] 1).totalRevenue
      ≠ (monthRow steadyAttachScenario [halfRetailTier] [halfBag] [halfPouch] 1).bulkRevenue
        + (monthRow steadyAttachScenario [halfRetailTier] [halfBag] [halfPouch] 1).retailRevenue := by
  refine ⟨by simp [projectScenario, hi], rfl, rfl, rfl,
    jround_add_abs_le (bulkRevU s tiers bp rp (i + 1)) (retailRevU s tiers bp rp (i + 1)),
    jround_add_abs_le (bulkProfitU s tiers bp rp (i + 1)) (retailProfitU s tiers bp rp (i + 1)),
    ?_⟩
  have hne : ("t1" : String) ≠ "" := by decide
  have hb : bulkRevU steadyAttachScenario [halfRetailTier] [halfBag] [halfPouch] 1 = 1 / 2 := by
    norm_num [bulkRevU, cohortContrib, tierMapId, tierEconLookup, calcTierEconomics, hne,
      calcTierEconomicsD, bulkRevRawD, bagsD, servingsPerProductD, selectedBulk,
      totalServingsPerMonth, countSmall, countMedium, countLarge, activeAux,
      steadyAttachScenario, halfRetailTier, halfBag, round2, jround]
  have hr : retailRevU steadyAttachScenario [halfRetailTier] [halfBag] [halfPouch] 1 = 1 / 2 := by
    norm_num [retailRevU, cohortContrib, tierMapId, tierEconLookup, calcTierEconomics, hne,
      calcTierEconomicsD, retailRevRawD, retailUnitsPerProductD, selectedRetail,
      countSmall, countMedium, countLarge, activeAux,
      steadyAttachScenario, halfRetailTier, halfPouch, calcRetailMargin]
  show jround (bulkRevU steadyAttachScenario [halfRetailTier] [halfBag] [halfPouch] 1
        + retailRevU steadyAttachScenario [halfRetailTier] [halfBag] [halfPouch] 1)
      ≠ jround (bulkRevU steadyAttachScenario [halfRetailTier] [halfBag] [halfPouch] 1)
        + jround (retailRevU steadyAttachScenario [halfRetailTier] [halfBag] [halfPouch] 1)
  rw [hb, hr]
  norm_num [jround]

/-- Witness for C10 at month 1 of the steady scenario with no tiers. -/
theorem c10_independent_rounding_witness :
    (projectScenario steadyScenario [] [] [])[0]?
      = some (monthRow steadyScenario [] [] [] 1) ∧
    |(monthRow steadyScenario [] [] [] 1).totalRevenue
      - ((monthRow steadyScenario [] [] [] 1).bulkRevenue
        + (monthRow steadyScenario [] [] [] 1).retailRevenue)| ≤ 1 := by
  have h := c10_independent_rounding steadyScenario [] [] [] 0 (by norm_num)
  exact ⟨h.1, h.2.2.2.2.1⟩

/-- **C3 (counterexample).** A steady scenario earning exactly 0.5 a month
reports 1 as every month's `totalRevenue` (sum 12 over the year) while the
month-12 `cumulativeRev` is 6: the two differ by 6, far beyond one
displayed whole unit. -/
theorem c3_cumulative_counterexample :
    ((projectScenario steadyScenario [halfTier] [halfBag] []).map MonthRow.totalRevenue).sum
      = 12 ∧
    ((projectScenario steadyScenario [halfTier] [halfBag] [])[11]?).map MonthRow.cumulativeRev
      = some 6 ∧
    ¬ |(6 : ℤ) - 12| ≤ 1 := by
  have hne : ("t1" : String) ≠ "" := by decide
  have hps : steadyScenario.pctSmall = 100 := rfl
  have hpm : steadyScenario.pctMedium = 0 := rfl
  have hpl : steadyScenario.pctLarge = 0 := rfl
  have hra : steadyScenario.retailAttachPct = 0 := rfl
  have hact : ∀ n, activeAux steadyScenario n = 1 := by
    intro n
    induction n with
    | zero => rfl
    | succ k ih =>
      rw [show activeAux steadyScenario (k + 1)
          = activeAux steadyScenario k * (1 - steadyScenario.monthlyChurnPct / 100)
            + steadyScenario.newPartnersPerMonth from rfl, ih]
      norm_num [steadyScenario]
  have htot : ∀ m, totalRevU steadyScenario [halfTier] [halfBag] [] m = 1 / 2 := by
    intro m
    norm_num [totalRevU, bulkRevU, retailRevU, cohortContrib, tierMapId, tierEconLookup,
      calcTierEconomics, calcTierEconomicsD, bulkRevRawD, retailRevRawD, bagsD,
      servingsPerProductD, retailUnitsPerProductD, selectedBulk, selectedRetail,
      totalServingsPerMonth, countSmall, countMedium, countLarge, hact, hne,
      hps, hpm, hpl, hra, halfTier, halfBag, round2, jround]
  have hrow : ∀ i : ℕ,
      (monthRow steadyScenario [halfTier] [halfBag] [] (i + 1)).totalRevenue = 1 := by
    intro i
    show jround (totalRevU steadyScenario [halfTier] [halfBag] [] (i + 1)) = 1
    rw [htot]
    norm_num [jround]
  refine ⟨?_, ?_, by decide⟩
  · have hcongr : ∑ i ∈ Finset.range 12,
        (MonthRow.totalRevenue ∘ fun i => monthRow steadyScenario [halfTier] [halfBag] [] (i + 1)) i
        = ∑ _i ∈ Finset.range 12, (1 : ℤ) :=
      Finset.sum_congr rfl (fun i _ => hrow i)
    rw [projectScenario, List.map_map, list_range_map_sum, hcongr]
    simp
  · have h12 : (projectScenario steadyScenario [halfTier] [halfBag] [])[11]?
        = some (monthRow steadyScenario [halfTier] [halfBag] [] 12) := by
      simp [projectScenario]
    rw [h12, Option.map_some']
    have hc : (monthRow steadyScenario [halfTier] [halfBag] [] 12).cumulativeRev = 6 := by
      show jround (cumRevU steadyScenario [halfTier] [halfBag] [] 12) = 6
      rw [cumRevU_eq_sum, Finset.sum_congr rfl (fun i _ => htot (i + 1))]
      norm_num [Finset.sum_const, Finset.card_range, jround]
    rw [hc]

/-- **C3 (amended).** The month-12 `cumulativeRev` is the whole-unit
rounding of the sum of the UNROUNDED monthly totals, so it can differ from
the sum of the 12 independently rounded monthly `totalRevenue` fields by
up to 6 whole units (each of the 12 monthly roundings and the final one
contributes at most half a unit), and never by more. -/
theorem c3_cumulative_amended (s : Scenario) (tiers : List Tier)
    (bp : List BulkProduct) (rp : List RetailProduct) :
    (projectScenario s tiers bp rp)[11]? = some (monthRow s tiers bp rp 12) ∧
    (monthRow s tiers bp rp 12).cumulativeRev = jround (cumRevU s tiers bp rp 12) ∧
    |(monthRow s tiers bp rp 12).cumulativeRev
      - ((projectScenario s tiers bp rp).map MonthRow.totalRevenue).sum| ≤ 6 := by
  refine ⟨by simp [projectScenario], rfl, ?_⟩
  have hsum : ((projectScenario s tiers bp rp).map MonthRow.totalRevenue).sum
      = ∑ i ∈ Finset.range 12, jround (totalRevU s tiers bp rp (i + 1)) := by
    rw [projectScenario, List.map_map, list_range_map_sum]
    rfl
  have hq := jround_sum_sub_abs_le (fun i => totalRevU s tiers bp rp (i + 1)) 12
  set A : ℤ := jround (∑ i ∈ Finset.range 12, totalRevU s tiers bp rp (i + 1)) with hA
  set B : ℤ := ∑ i ∈ Finset.range 12, jround (totalRevU s tiers bp rp (i + 1)) with hB
  have hcast : ((A - B : ℤ) : ℚ)
      = (A : ℚ)
        - ∑ i ∈ Finset.range 12, ((jround (totalRevU s tiers bp rp (i + 1)) : ℤ) : ℚ) := by
    rw [hB]
    push_cast
    ring
  have habs : |((A - B : ℤ) : ℚ)| ≤ 13 / 2 := by
    rw [hcast, hA]
    exact le_trans hq (by norm_num)
  have h7 : |A - B| < 7 := by
    have h1 : |((A - B : ℤ) : ℚ)| < 7 := lt_of_le_of_lt habs (by norm_num)
    rw [← Int.cast_abs] at h1
    exact_mod_cast h1
  rw [hsum]
  show |jround (cumRevU s tiers bp rp 12) - B| ≤ 6
  rw [cumRevU_eq_sum, ← hA]
  omega

theorem cohortContrib_positional {tiers : List Tier} {bp : List BulkProduct}
    {rp : List RetailProduct} (h1 : ∀ t ∈ tiers, t.id ≠ "")
    (h2 : (tiers.map Tier.id).Nodup) (i : ℕ) (c : ℚ) (f : TierEconomics → ℚ) :
    cohortContrib tiers bp rp i c f = c * positionalEcon tiers bp rp i f := by
  cases ht : tiers[i]? with
  | none => simp [cohortContrib, tierMapId, positionalEcon, ht]
  | some t =>
    rw [cohortContrib_of_nodup h1 h2 ht]
    unfold positionalEcon
    rw [ht]

/-- **C5 (counterexample).** `projectScenario` keys tier economics by tier
`id`, not purely by position: with tiers `[first, second, third]` where the
first and third share id `x` (economics 1 and 2 per partner), an all-small
one-partner month yields bulk revenue 2 — the third tier's economics —
while the purely positional reading predicts 1. -/
theorem c5_positional_counterexample :
    bulkRevU steadyScenario [dupTierFirst, dupTierMiddle, dupTierThird] [unitBag] [] 1 = 2 ∧
    countSmall steadyScenario 1 * (calcTierEconomics dupTierFirst [unitBag] []).bulkRev
      + countMedium steadyScenario 1 * (calcTierEconomics dupTierMiddle [unitBag] []).bulkRev
      + countLarge steadyScenario 1 * (calcTierEconomics dupTierThird [unitBag] []).bulkRev
      = 1 ∧
    (2 : ℚ) ≠ 1 := by
  have hnex : ("x" : String) ≠ "" := by decide
  have hney : ("y" : String) ≠ "" := by decide
  have hid1 : dupTierFirst.id = "x" := rfl
  have hid2 : dupTierMiddle.id = "y" := rfl
  have hid3 : dupTierThird.id = "x" := rfl
  have hact0 : activeAux steadyScenario 0 = 1 := rfl
  have hps : steadyScenario.pctSmall = 100 := rfl
  have hpm : steadyScenario.pctMedium = 0 := rfl
  have hpl : steadyScenario.pctLarge = 0 := rfl
  have hlkx : tierEconLookup [dupTierFirst, dupTierMiddle, dupTierThird] [unitBag] [] "x"
      = some (calcTierEconomics dupTierThird [unitBag] []) := rfl
  have hlky : tierEconLookup [dupTierFirst, dupTierMiddle, dupTierThird] [unitBag] [] "y"
      = some (calcTierEconomics dupTierMiddle [unitBag] []) := rfl
  have h3 : (calcTierEconomics dupTierThird [unitBag] []).bulkRev = 2 := by
    norm_num [calcTierEconomics, calcTierEconomicsD, bulkRevRawD, bagsD, servingsPerProductD,
      selectedBulk, totalServingsPerMonth, dupTierThird, unitBag, round2, jround]
  have h1' : (calcTierEconomics dupTierFirst [unitBag] []).bulkRev = 1 := by
    norm_num [calcTierEconomics, calcTierEconomicsD, bulkRevRawD, bagsD, servingsPerProductD,
      selectedBulk, totalServingsPerMonth, dupTierFirst, unitBag, round2, jround]
  have h2' : (calcTierEconomics dupTierMiddle [unitBag] []).bulkRev = 0 := by
    norm_num [calcTierEconomics, calcTierEconomicsD, bulkRevRawD, bagsD, servingsPerProductD,
      selectedBulk, totalServingsPerMonth, dupTierMiddle, unitBag, round2, jround]
  refine ⟨?_, ?_, by norm_num⟩
  · norm_num [bulkRevU, cohortContrib, tierMapId, hid1, hid2, hid3, hnex, hney, hlkx, hlky,
      h3, h2', countSmall, countMedium, countLarge, hact0, hps, hpm, hpl]
  · norm_num [countSmall, countMedium, countLarge, hact0, hps, hpm, hpl, h1', h2', h3]

/-- **C5 (amended).** Provided each tier's id is a non-empty string and
the ids are pairwise distinct (the data model's identity invariant), the
mapping is purely positional: each month's accumulators are exactly the
cohort counts times the economics of the tiers at positions 0, 1, 2, a
missing position contributing zero; and any cohort beyond the end of the
tier list contributes exactly zero, with no error raised. -/
theorem c5_positional_amended (s : Scenario) (tiers : List Tier) (bp : List BulkProduct)
    (rp : List RetailProduct) (h1 : ∀ t ∈ tiers, t.id ≠ "")
    (h2 : (tiers.map Tier.id).Nodup) :
    (∀ m : ℕ, bulkRevU s tiers bp rp m
      = countSmall s m * positionalEcon tiers bp rp 0 TierEconomics.bulkRev
        + countMedium s m * positionalEcon tiers bp rp 1 TierEconomics.bulkRev
        + countLarge s m * positionalEcon tiers bp rp 2 TierEconomics.bulkRev) ∧
    (∀ m : ℕ, bulkProfitU s tiers bp rp m
      = countSmall s m * positionalEcon tiers bp rp 0 TierEconomics.bulkProfit
        + countMedium s m * positionalEcon tiers bp rp 1 TierEconomics.bulkProfit
        + countLarge s m * positionalEcon tiers bp rp 2 TierEconomics.bulkProfit) ∧
    (∀ m : ℕ, retailRevU s tiers bp rp m
      = countSmall s m
          * positionalEcon tiers bp rp 0 (fun e => e.retailRev * (s.retailAttachPct / 100))
        + countMedium s m
          * positionalEcon tiers bp rp 1 (fun e => e.retailRev * (s.retailAttachPct / 100))
        + countLarge s m
          * positionalEcon tiers bp rp 2 (fun e => e.retailRev * (s.retailAttachPct / 100))) ∧
    (∀ m : ℕ, retailProfitU s tiers bp rp m
      = countSmall s m
          * positionalEcon tiers bp rp 0 (fun e => e.retailProfit * (s.retailAttachPct / 100))
        + countMedium s m
          * positionalEcon tiers bp rp 1 (fun e => e.retailProfit * (s.retailAttachPct / 100))
        + countLarge s m
          * positionalEcon tiers bp rp 2 (fun e => e.retailProfit * (s.retailAttachPct / 100))) ∧
    (∀ (i : ℕ) (c : ℚ) (f : TierEconomics → ℚ), tiers.length ≤ i →
      cohortContrib tiers bp rp i c f = 0) := by
  refine ⟨fun m => ?_, fun m => ?_, fun m => ?_, fun m => ?_,
    fun i c f hlen => cohortContrib_oob hlen c f⟩
  · unfold bulkRevU
    rw [cohortContrib_positional h1 h2 0, cohortContrib_positional h1 h2 1,
      cohortContrib_positional h1 h2 2]
  · unfold bulkProfitU
    rw [cohortContrib_positional h1 h2 0, cohortContrib_positional h1 h2 1,
      cohortContrib_positional h1 h2 2]
  · unfold retailRevU
    rw [cohortContrib_positional h1 h2 0, cohortContrib_positional h1 h2 1,
      cohortContrib_positional h1 h2 2]
  · unfold retailProfitU
    rw [cohortContrib_positional h1 h2 0, cohortContrib_positional h1 h2 1,
      cohortContrib_positional h1 h2 2]

/-- Witness for the amended C5: with two distinct-id tiers the positional
decomposition holds and the absent large cohort contributes zero. -/
theorem c5_positional_amended_witness :
    bulkRevU steadyScenario [dupTierFirst, dupTierMiddle] [unitBag] [] 1
      = countSmall steadyScenario 1
          * positionalEcon [dupTierFirst, dupTierMiddle] [unitBag] [] 0 TierEconomics.bulkRev
        + countMedium steadyScenario 1
          * positionalEcon [dupTierFirst, dupTierMiddle] [unitBag] [] 1 TierEconomics.bulkRev
        + countLarge steadyScenario 1
          * positionalEcon [dupTierFirst, dupTierMiddle] [unitBag] [] 2 TierEconomics.bulkRev ∧
    cohortContrib [dupTierFirst, dupTierMiddle] [unitBag] [] 2 (countLarge steadyScenario 1)
      TierEconomics.bulkRev = 0 := by
  have h := c5_positional_amended steadyScenario [dupTierFirst, dupTierMiddle] [unitBag] []
    (by decide) (by decide)
  exact ⟨h.1 1, h.2.2.2.2 2 (countLarge steadyScenario 1) TierEconomics.bulkRev (by norm_num)⟩

/-- **C8 (counterexample).** For the Base Case parameters the month-3
record's `totalActive` field is 4.92 — the 2-decimal rounding of the
recurrence value — not 4.9204 as the claim states the report to carry. -/
theorem c8_base_case_counterexample :
    ((projectScenario baseCase [] [] [])[2]?).map MonthRow.totalActive = some 4.92 ∧
    (4.92 : ℚ) ≠ 4.9204 := by
  constructor
  · have h2 : activeAux baseCase 2 = 4.9204 := by
      rw [show activeAux baseCase 2
          = (activeAux baseCase 0 * (1 - baseCase.monthlyChurnPct / 100)
              + baseCase.newPartnersPerMonth) * (1 - baseCase.monthlyChurnPct / 100)
            + baseCase.newPartnersPerMonth from rfl]
      norm_num [baseCase, activeAux]
    simp only [projectScenario, List.getElem?_map]
    rw [show (List.range 12)[2]? = some 2 from rfl, Option.map_some', Option.map_some']
    show some (round2 (activeAux baseCase 2)) = some 4.92
    rw [h2]
    norm_num [round2, jround]
  · norm_num

/-- **C8 (amended).** For the Base Case parameters
(`startingPartners = 1`, `newPartnersPerMonth = 2`, `monthlyChurnPct = 2`)
the recurrence state is `1 × 0.98 + 2 = 2.98` at month 2 and
`2.98 × 0.98 + 2 = 4.9204` at month 3; the reported `totalActive` fields,
carrying partner counts rounded to 2 decimal places, are 2.98 and 4.92. -/
theorem c8_base_case_amended (tiers : List Tier) (bp : List BulkProduct)
    (rp : List RetailProduct) :
    activeAux baseCase 1 = 2.98 ∧
    activeAux baseCase 2 = 4.9204 ∧
    ((projectScenario baseCase tiers bp rp)[1]?).map MonthRow.totalActive = some 2.98 ∧
    ((projectScenario baseCase tiers bp rp)[2]?).map MonthRow.totalActive = some 4.92 := by
  have h1 : activeAux baseCase 1 = 2.98 := by
    rw [show activeAux baseCase 1
        = activeAux baseCase 0 * (1 - baseCase.monthlyChurnPct / 100)
          + baseCase.newPartnersPerMonth from rfl]
    norm_num [baseCase, activeAux]
  have h2 : activeAux baseCase 2 = 4.9204 := by
    rw [show activeAux baseCase 2
        = activeAux baseCase 1 * (1 - baseCase.monthlyChurnPct / 100)
          + baseCase.newPartnersPerMonth from rfl, h1]
    norm_num [baseCase]
  refine ⟨h1, h2, ?_, ?_⟩
  · simp only [projectScenario, List.getElem?_map]
    rw [show (List.range 12)[1]? = some 1 from rfl, Option.map_some', Option.map_some']
    show some (round2 (activeAux baseCase 1)) = some 2.98
    rw [h1]
    norm_num [round2, jround]
  · simp only [projectScenario, List.getElem?_map]
    rw [show (List.range 12)[2]? = some 2 from rfl, Option.map_some', Option.map_some']
    show some (round2 (activeAux baseCase 2)) = some 4.92
    rw [h2]
    norm_num [round2, jround]

end RitualGrowthDash
